import Mathlib

/-!
Verification of the Ephemera control plane (preview environments for pull
requests).  The definitions below are shallow embeddings of the Python
sources under `api/app`: the environment store (`crud/environment.py`,
`crud/deployment.py`), the model layer (`models/environment.py`), the
cluster driver (`services/kubernetes.py`), the manifest validator
(`services/ai_validators.py`), the deployment service
(`services/deployment.py`), the webhook handler (`api/webhooks.py`) and the
cleanup sweep (`tasks/cleanup.py`).  Strings are modelled as `List Char`,
wall-clock instants as `Int` (minutes), Python `None`/optional values as
`Option`, and Python's numeric types as `Int`/`Rat` with explicit
truncation toward zero.
-/

/-- Truthiness of an optional Python string (`if error_message:`):
`None` and the empty string are falsy. -/
def pyTruthyStr : Option (List Char) → Bool
  | none => false
  | some s => !s.isEmpty

/-- `EnvironmentStatus` from `models/environment.py`. -/
inductive EnvironmentStatus where
  | pending
  | provisioning
  | ready
  | updating
  | destroying
  | destroyed
  | failed
deriving DecidableEq

/-- Decimal digit character (codepoint 48 + d). -/
def digitChar (d : Nat) : Char := Char.ofNat (48 + d)

/-- Decimal rendering of a natural number, fuel-indexed so that it reduces
definitionally (mirrors Python `str(int)` for non-negative values). -/
def natDigitsAux : Nat → Nat → List Char
  | 0, _ => []
  | fuel + 1, n =>
      if n < 10 then [digitChar n]
      else natDigitsAux fuel (n / 10) ++ [digitChar (n % 10)]

/-- Decimal rendering of a natural number. -/
def natDigits (n : Nat) : List Char := natDigitsAux (n + 1) n

/-- An `environments` row (`models/environment.py`).  The Kubernetes
namespace column is called `k8s_namespace` because `namespace` is reserved
in Lean. -/
structure Environment where
  repository_full_name : List Char
  repository_name : List Char
  pr_number : Nat
  pr_title : List Char
  branch_name : List Char
  commit_sha : List Char
  k8s_namespace : List Char
  status : EnvironmentStatus
  error_message : Option (List Char)
  last_deployed_at : Option Int
  destroyed_at : Option Int
  updated_at : Int
deriving DecidableEq

/-- `Environment.generate_namespace` (`models/environment.py` lines 66-71):
`pr-{pr_number}-{repository_name.lower().replace("_", "-")[:20]}`. -/
def repoSlug (repository_name : List Char) : List Char :=
  ((repository_name.map Char.toLower).map
    (fun c => if c == '_' then '-' else c)).take 20

/-- The namespace generated for a PR environment. -/
def generate_namespace (pr_number : Nat) (repository_name : List Char) :
    List Char :=
  ['p', 'r', '-'] ++ natDigits pr_number ++ ['-'] ++ repoSlug repository_name

/-- `create_environment` (`crud/environment.py` lines 54-86): builds the
row with status PENDING and the generated namespace. -/
def create_environment (repository_full_name repository_name : List Char)
    (pr_number : Nat) (pr_title branch_name commit_sha : List Char)
    (now : Int) : Environment :=
  { repository_full_name := repository_full_name
    repository_name := repository_name
    pr_number := pr_number
    pr_title := pr_title
    branch_name := branch_name
    commit_sha := commit_sha
    k8s_namespace := generate_namespace pr_number repository_name
    status := EnvironmentStatus.pending
    error_message := none
    last_deployed_at := none
    destroyed_at := none
    updated_at := now }

/-- `update_environment_status` (`crud/environment.py` lines 89-106).  The
`updated_at` column carries SQLAlchemy's `onupdate=func.now()`.  The
function assigns the requested status unconditionally, stores a truthy
error message, stamps `last_deployed_at` on READY and `destroyed_at` on
DESTROYED. -/
def update_environment_status (env : Environment)
    (status : EnvironmentStatus) (error_message : Option (List Char))
    (now : Int) : Environment :=
  let e := { env with status := status, updated_at := now }
  let e := if pyTruthyStr error_message then
             { e with error_message := error_message } else e
  let e := if status == EnvironmentStatus.ready then
             { e with last_deployed_at := some now } else e
  if status == EnvironmentStatus.destroyed then
    { e with destroyed_at := some now } else e

/-- `update_environment_commit` (`crud/environment.py` lines 109-119):
stores the new sha and forces status UPDATING. -/
def update_environment_commit (env : Environment)
    (commit_sha : List Char) (now : Int) : Environment :=
  { env with commit_sha := commit_sha,
             status := EnvironmentStatus.updating,
             updated_at := now }

/-- Modelled from the spec: the legal lifecycle transition graph of §4.8.
Edges: PENDING→PROVISIONING/DESTROYING, PROVISIONING→READY/FAILED,
READY→UPDATING/DESTROYING/FAILED, UPDATING→READY/FAILED,
DESTROYING→DESTROYED/FAILED, FAILED→PROVISIONING/DESTROYING (retry).
DESTROYED is terminal.  This is the specification side of the refinement
claim about `update_environment_status`; the code side is the definition
above. -/
def legalTransition : EnvironmentStatus → EnvironmentStatus → Bool
  | .pending, .provisioning => true
  | .pending, .destroying => true
  | .provisioning, .ready => true
  | .provisioning, .failed => true
  | .ready, .updating => true
  | .ready, .destroying => true
  | .ready, .failed => true
  | .updating, .ready => true
  | .updating, .failed => true
  | .destroying, .destroyed => true
  | .destroying, .failed => true
  | .failed, .provisioning => true
  | .failed, .destroying => true
  | _, _ => false

/-! ### DNS labels (RFC 1123, as required of Kubernetes namespaces) -/

/-- A lowercase letter or a decimal digit. -/
def isLowerAlnum (c : Char) : Bool :=
  ('a' ≤ c && c ≤ 'z') || ('0' ≤ c && c ≤ '9')

/-- A character allowed anywhere inside a DNS label. -/
def isLabelChar (c : Char) : Bool := isLowerAlnum c || c == '-'

/-- Whether the final character of the list is a lowercase alphanumeric. -/
def lastIsAlnum : List Char → Bool
  | [] => false
  | [c] => isLowerAlnum c
  | _ :: c :: rest => lastIsAlnum (c :: rest)

/-- RFC 1123 DNS label: 1-63 characters, lowercase alphanumerics and
hyphens, starting and ending with an alphanumeric. -/
def isValidDNSLabel (s : List Char) : Bool :=
  match s with
  | [] => false
  | c :: _ =>
      s.length ≤ 63 && isLowerAlnum c && s.all isLabelChar && lastIsAlnum s

/-! ### Deployment store (`crud/deployment.py`) -/

/-- `DeploymentStatus` from `models/deployment.py`. -/
inductive DeploymentStatus where
  | queued
  | in_progress
  | success
  | failed
deriving DecidableEq

/-- A `deployments` row (`models/deployment.py`).  The model defines no
`ai_generated` or `ai_plan` columns (the alembic migration
`add_ai_deployment_fields.py` adds them to the table, but the ORM model and
the store were never updated). -/
structure Deployment where
  commit_sha : List Char
  commit_message : Option (List Char)
  status : DeploymentStatus
  started_at : Option Int
  completed_at : Option Int
  error_message : Option (List Char)
  logs : Option (List Char)
deriving DecidableEq

/-- `create_deployment` (`crud/deployment.py` lines 34-50). -/
def create_deployment (commit_sha : List Char)
    (commit_message : Option (List Char)) : Deployment :=
  { commit_sha := commit_sha
    commit_message := commit_message
    status := DeploymentStatus.queued
    started_at := none
    completed_at := none
    error_message := none
    logs := none }

/-- `update_deployment_status` (`crud/deployment.py` lines 53-77).  Its
signature accepts only `status`, `error_message` and `logs` besides the
session and the row. -/
def update_deployment_status (dep : Deployment) (status : DeploymentStatus)
    (error_message logs : Option (List Char)) (now : Int) : Deployment :=
  let d := { dep with status := status }
  let d := if status == DeploymentStatus.in_progress && d.started_at.isNone
           then { d with started_at := some now } else d
  let d := if status == DeploymentStatus.success
              || status == DeploymentStatus.failed
           then { d with completed_at := some now } else d
  let d := if pyTruthyStr error_message
           then { d with error_message := error_message } else d
  if pyTruthyStr logs then { d with logs := logs } else d

/-- The keyword parameters `update_deployment_status` accepts
(`crud/deployment.py` lines 53-59). -/
def updateDeploymentStatusKeywords : List String :=
  ["db", "deployment", "status", "error_message", "logs"]

/-- The keyword arguments the provisioning task passes when recording a
deployment attempt (`tasks/environment.py` lines 145-152). -/
def provisionTaskCallKeywords : List String :=
  ["db", "deployment", "status", "error_message", "ai_generated", "ai_plan"]

/-- Python keyword binding: a call binds only when every passed keyword is
a parameter of the callee; otherwise the interpreter raises `TypeError`
before the body runs. -/
def pythonCallBinds (accepted passed : List String) : Bool :=
  passed.all (fun k => accepted.contains k)

/-- A call to `update_deployment_status` with a given set of keyword
arguments: `none` models the `TypeError` raised when a keyword is not a
parameter of the function. -/
def invoke_update_deployment_status (passed : List String)
    (dep : Deployment) (status : DeploymentStatus)
    (error_message logs : Option (List Char)) (now : Int) :
    Option Deployment :=
  if pythonCallBinds updateDeploymentStatusKeywords passed then
    some (update_deployment_status dep status error_message logs now)
  else
    none

/-! ### Cluster driver (`services/kubernetes.py`) -/

/-- Outcome of one Kubernetes API call, as distinguished by the driver's
exception handlers. -/
inductive ApiOutcome where
  | success
  | conflict409
  | notFound404
  | otherError
deriving DecidableEq

/-- `KubernetesService.create_namespace` (`services/kubernetes.py` lines
46-90): when the client is not configured (`enabled = False`) it returns
`False`; otherwise a 409 conflict is treated as success and any other API
error returns `False`. -/
def k8s_create_namespace (enabled : Bool) (outcome : ApiOutcome) : Bool :=
  if !enabled then false
  else match outcome with
    | .success => true
    | .conflict409 => true
    | .notFound404 => false
    | .otherError => false

/-- `KubernetesService.delete_namespace` (`services/kubernetes.py` lines
92-119): disabled mode returns `False`; a 404 is treated as success; any
other API error returns `False`. -/
def k8s_delete_namespace (enabled : Bool) (outcome : ApiOutcome) : Bool :=
  if !enabled then false
  else match outcome with
    | .success => true
    | .conflict409 => false
    | .notFound404 => true
    | .otherError => false

/-- `KubernetesService.create_resource_quota` (`services/kubernetes.py`
lines 144-194): disabled mode returns `False`; 409 is success; any other
API error returns `False`. -/
def k8s_create_resource_quota (enabled : Bool) (outcome : ApiOutcome) :
    Bool :=
  if !enabled then false
  else match outcome with
    | .success => true
    | .conflict409 => true
    | .notFound404 => false
    | .otherError => false

/-! ### Python string and number helpers -/

/-- Leading-whitespace removal, as in `str.strip`. -/
def stripLeft (s : List Char) : List Char := s.dropWhile Char.isWhitespace

/-- Trailing-whitespace removal, as in `str.strip`. -/
def stripRight : List Char → List Char
  | [] => []
  | c :: t =>
      let r := stripRight t
      if r.isEmpty then (if c.isWhitespace then [] else [c]) else c :: r

/-- Python `str.strip()`. -/
def pyStrip (s : List Char) : List Char := stripLeft (stripRight s)

/-- Python `str.endswith(suffix)`. -/
def pyEndsWith (s suffix : List Char) : Bool :=
  List.isPrefixOf suffix.reverse s.reverse

/-- Value of a list of decimal digit characters. -/
def digitsToNat (l : List Char) : Nat :=
  l.foldl (fun a c => a * 10 + (c.toNat - 48)) 0

/-- Core of Python `int(str)` after stripping: optional sign followed by at
least one decimal digit. -/
def pyParseIntCore : List Char → Option Int
  | [] => none
  | '-' :: t =>
      if !t.isEmpty && t.all Char.isDigit then
        some (-(digitsToNat t : Int))
      else none
  | '+' :: t =>
      if !t.isEmpty && t.all Char.isDigit then some (digitsToNat t : Int)
      else none
  | l =>
      if l.all Char.isDigit then some (digitsToNat l : Int) else none

/-- Python `int(str)`: surrounding whitespace is accepted; `none` models
`ValueError`. -/
def pyParseInt (s : List Char) : Option Int := pyParseIntCore (pyStrip s)

/-- Unsigned part of Python `float(str)`: `digits`, `digits.`, `.digits`
or `digits.digits`.  The exact decimal value is returned as a
numerator/denominator pair of naturals. -/
def pyParseFloatMagPair (l : List Char) : Option (Nat × Nat) :=
  let ip := l.takeWhile Char.isDigit
  let rest := l.drop ip.length
  match rest with
  | [] => if ip.isEmpty then none else some (digitsToNat ip, 1)
  | '.' :: frac =>
      if frac.all Char.isDigit && (!ip.isEmpty || !frac.isEmpty) then
        some (digitsToNat ip * 10 ^ frac.length + digitsToNat frac,
              10 ^ frac.length)
      else none
  | _ => none

/-- Floor of the base-2 logarithm, fuel-indexed so that it reduces
definitionally (`natLog2 0 = natLog2 1 = 0`). -/
def natLog2Aux : Nat → Nat → Nat
  | 0, _ => 0
  | fuel + 1, n => if n < 2 then 0 else natLog2Aux fuel (n / 2) + 1

/-- Floor of the base-2 logarithm. -/
def natLog2 (n : Nat) : Nat := natLog2Aux n n

/-- Round the fraction `a / b` (with `b > 0`) to the nearest integer,
ties to even — the IEEE-754 default rounding. -/
def roundHalfEvenNat (a b : Nat) : Nat :=
  let d := a / b
  let r := a % b
  if 2 * r < b then d
  else if b < 2 * r then d + 1
  else if d % 2 == 0 then d else d + 1

/-- An IEEE-754 binary64 double in the normal range, as the exact value
`m · 2^e` (zero is `⟨0, 0⟩`; nonzero results are normalized with
`2^52 ≤ |m| < 2^53`). -/
structure B64 where
  m : Int
  e : Int
deriving DecidableEq

/-- The binary64 double nearest to the positive fraction `a / b` (round
to nearest, ties to even): the significand is the half-even rounding of
`a/b · 2^(52-e)` where `2^e ≤ a/b < 2^(e+1)`.  Exponent overflow and
subnormals, which resource strings never reach, are not modelled. -/
def roundPosToB64 (a b : Nat) : B64 :=
  let e0 : Int := (natLog2 a : Int) - (natLog2 b : Int)
  let le2 : Int → Bool := fun e =>
    if 0 ≤ e then b * 2 ^ e.toNat ≤ a else b ≤ a * 2 ^ (-e).toNat
  let e := if le2 (e0 + 1) then e0 + 1 else if le2 e0 then e0 else e0 - 1
  let shift : Int := 52 - e
  let bigA := if 0 ≤ shift then a * 2 ^ shift.toNat else a
  let bigB := if 0 ≤ shift then b else b * 2 ^ (-shift).toNat
  let m := roundHalfEvenNat bigA bigB
  if m = 2 ^ 53 then ⟨2 ^ 52, e - 51⟩ else ⟨(m : Int), e - 52⟩

/-- The binary64 double nearest to the fraction `num / den` (CPython's
floats are correctly rounded doubles; this is also `int / int` true
division). -/
def roundRatToB64 (num : Int) (den : Nat) : B64 :=
  if num = 0 then ⟨0, 0⟩
  else
    let p := roundPosToB64 num.natAbs den
    if 0 ≤ num then p else ⟨-p.m, p.e⟩

/-- Binary64 multiplication of a double by a small integer constant
(1000, 1024, … are themselves exact doubles): the exact product
`x.m · k · 2^(x.e)`, rounded to the nearest double. -/
def pyFloatMulNat (x : B64) (k : Nat) : B64 :=
  if 0 ≤ x.e then roundRatToB64 (x.m * k * 2 ^ x.e.toNat) 1
  else roundRatToB64 (x.m * k) (2 ^ (-x.e).toNat)

/-- Binary64 division of a double by a positive integer constant: the
exact quotient, rounded to the nearest double. -/
def pyFloatDivNat (x : B64) (d : Nat) : B64 :=
  if 0 ≤ x.e then roundRatToB64 (x.m * 2 ^ x.e.toNat) d
  else roundRatToB64 x.m (d * 2 ^ (-x.e).toNat)

/-- CPython `int / int` true division: the nearest double of the exact
quotient. -/
def pyIntDivNat (n : Int) (d : Nat) : B64 := roundRatToB64 n d

/-- Python `int(float)`: truncation toward zero of `m · 2^e`. -/
def pyTruncB64 (x : B64) : Int :=
  if 0 ≤ x.e then x.m * 2 ^ x.e.toNat
  else Int.tdiv x.m (2 ^ (-x.e).toNat)

/-- Python `float(str)` on decimal literals (no exponent notation): the
nearest binary64 double of the decimal value; `none` models
`ValueError`. -/
def pyParseFloat (s : List Char) : Option B64 :=
  match pyStrip s with
  | '-' :: t => (pyParseFloatMagPair t).map
      (fun p => roundRatToB64 (-(p.1 : Int)) p.2)
  | '+' :: t => (pyParseFloatMagPair t).map
      (fun p => roundRatToB64 (p.1 : Int) p.2)
  | l => (pyParseFloatMagPair l).map
      (fun p => roundRatToB64 (p.1 : Int) p.2)

/-- `ManifestValidator._parse_cpu` (`services/ai_validators.py` lines
376-382): a trailing `m` yields that many millicores via `int`, otherwise
the value is parsed as a float and multiplied by 1000 in binary64
arithmetic, then truncated. -/
def parse_cpu (value : List Char) : Option Int :=
  let v := pyStrip value
  if pyEndsWith v ['m'] then pyParseInt v.dropLast
  else (pyParseFloat v).map (fun x => pyTruncB64 (pyFloatMulNat x 1000))

/-- `ManifestValidator._parse_memory_mi` (`services/ai_validators.py`
lines 384-395): `Gi` multiplies the parsed float by 1024, `Mi` is taken
as-is, `Ki` divides by 1024, and a bare value is read as an integer byte
count and divided by 1024² with float true division; all float operations
are binary64. -/
def parse_memory_mi (value : List Char) : Option Int :=
  let v := pyStrip value
  if pyEndsWith v ['G', 'i'] then
    (pyParseFloat v.dropLast.dropLast).map
      (fun x => pyTruncB64 (pyFloatMulNat x 1024))
  else if pyEndsWith v ['M', 'i'] then
    (pyParseFloat v.dropLast.dropLast).map pyTruncB64
  else if pyEndsWith v ['K', 'i'] then
    (pyParseFloat v.dropLast.dropLast).map
      (fun x => pyTruncB64 (pyFloatDivNat x 1024))
  else
    (pyParseInt v).map (fun n => pyTruncB64 (pyIntDivNat n (1024 * 1024)))

/-! ### Manifest values

Manifests travel through the validator and the deployment service as
untyped JSON-like Python structures.  `Val` models them; dictionaries are
association lists looked up by first occurrence (Python dictionaries never
hold duplicate keys). -/

/-- A Python/JSON value as handled by the manifest pipeline. -/
inductive Val where
  | vstr : String → Val
  | vint : Int → Val
  | vbool : Bool → Val
  | vlist : List Val → Val
  | vdict : List (String × Val) → Val
  | vnone : Val

/-- `dict.get(k)`: first binding of the key, if any. -/
def dictGet (d : List (String × Val)) (k : String) : Option Val :=
  match d with
  | [] => none
  | (k', v) :: rest => if k' == k then some v else dictGet rest k

/-- `dict[k] = v`: replace the first binding of the key or append one. -/
def dictSet (d : List (String × Val)) (k : String) (v : Val) :
    List (String × Val) :=
  match d with
  | [] => [(k, v)]
  | (k', v') :: rest =>
      if k' == k then (k, v) :: rest else (k', v') :: dictSet rest k v

/-- Python truthiness of an optional `Val` (`if not x:`). -/
def pyTruthyV : Option Val → Bool
  | none => false
  | some (.vstr s) => !s.isEmpty
  | some (.vint n) => !(n == 0)
  | some (.vbool b) => b
  | some (.vlist l) => !l.isEmpty
  | some (.vdict d) => !d.isEmpty
  | some .vnone => false

/-- `x.get(k, {})` where a non-dictionary value would make the source
raise before producing any result: collapse to the empty dictionary. -/
def dictD : Option Val → List (String × Val)
  | some (.vdict d) => d
  | _ => []

/-- Membership of a value in a set of strings (`v in {"a", "b"}`): false
for any non-string value. -/
def valInStrSetO (v : Option Val) (set : List String) : Bool :=
  match v with
  | some (.vstr s) => set.contains s
  | _ => false

/-- Python `str(value)` for the values that reach the resource-limit
parsers.  Containers and `None` never parse as numbers, matching the
`ValueError` of the source. -/
def pyStrOfVal : Val → List Char
  | .vstr s => s.toList
  | .vint n => if n < 0 then '-' :: natDigits n.natAbs else natDigits n.natAbs
  | .vbool b => if b then ['T', 'r', 'u', 'e'] else ['F', 'a', 'l', 's', 'e']
  | .vlist _ => ['[', ']']
  | .vdict _ => ['d', 'i', 'c', 't']
  | .vnone => ['N', 'o', 'n', 'e']

/-! ### Manifest validator (`services/ai_validators.py`) -/

/-- `ValidationResult` (`services/ai_validators.py` lines 17-30). -/
structure ValidationResult where
  is_valid : Bool
  errors : List String
  warnings : List String
  corrected_manifests : Option (List Val)

/-- `ValidationResult.add_error`: record the message and invalidate. -/
def add_error (r : ValidationResult) (msg : String) : ValidationResult :=
  { r with errors := r.errors ++ [msg], is_valid := false }

/-- `ValidationResult.add_warning`. -/
def add_warning (r : ValidationResult) (msg : String) : ValidationResult :=
  { r with warnings := r.warnings ++ [msg] }

/-- The freshly constructed `ValidationResult()`. -/
def emptyValidationResult : ValidationResult := ⟨true, [], [], none⟩

/-- `ALLOWED_KINDS`. -/
def allowedKinds : List String :=
  ["Deployment", "Service", "Ingress", "PersistentVolumeClaim",
   "ConfigMap", "Secret"]

/-- `ALLOWED_API_VERSIONS`. -/
def allowedApiVersions : List String :=
  ["apps/v1", "v1", "networking.k8s.io/v1"]

/-- `INTERNAL_ONLY_SERVICE_TYPES`. -/
def internalOnlyServiceTypes : List String :=
  ["NodePort", "LoadBalancer", "ExternalName"]

/-- The anchored `DNS_LABEL_RE` pattern
`[a-z0-9]([a-z0-9-]{0,61}[a-z0-9])?` applied to a whole string. -/
def dnsNameOk (s : List Char) : Bool :=
  match s with
  | [] => false
  | [c] => isLowerAlnum c
  | c :: rest =>
      isLowerAlnum c && rest.length ≤ 62
        && rest.dropLast.all isLabelChar && lastIsAlnum rest

/-- `ManifestValidator._check_resource_limit` (lines 301-330): a missing
or falsy value is skipped; an unparsable value warns (the `ValueError`
branch); a value past the cap warns. -/
def check_resource_limit (value : Option Val) (isCpu : Bool) (pfx : String)
    (r : ValidationResult) : ValidationResult :=
  if !pyTruthyV value then r
  else
    match value with
    | none => r
    | some v =>
        if isCpu then
          match parse_cpu (pyStrOfVal v) with
          | none => add_warning r (pfx ++ ": Could not parse cpu limit")
          | some mc =>
              if mc > 2000 then
                add_warning r (pfx ++ ": CPU limit exceeds maximum, will be capped")
              else r
        else
          match parse_memory_mi (pyStrOfVal v) with
          | none => add_warning r (pfx ++ ": Could not parse memory limit")
          | some mi =>
              if mi > 2048 then
                add_warning r (pfx ++ ": Memory limit exceeds maximum, will be capped")
              else r

/-- The `resources.limits` checks at the end of
`ManifestValidator._validate_container` (lines 289-299). -/
def container_resource_checks (d : List (String × Val)) (pfx : String)
    (r : ValidationResult) : ValidationResult :=
  match dictGet d "resources" with
  | some (.vdict rd) =>
      match dictGet rd "limits" with
      | some (.vdict ld) =>
          let r := check_resource_limit (dictGet ld "cpu") true pfx r
          check_resource_limit (dictGet ld "memory") false pfx r
      | _ => r
  | _ => r

/-- `ManifestValidator._validate_container` (lines 255-299). -/
def validate_container (c : Val) (pfx : String) (r : ValidationResult) :
    ValidationResult :=
  match c with
  | .vdict d =>
      if !pyTruthyV (dictGet d "name") then
        add_error r (pfx ++ ": Missing container name")
      else if !pyTruthyV (dictGet d "image") then
        add_error r (pfx ++ ": Missing container image")
      else
        let r := match dictGet d "image" with
          | some (.vstr s) =>
              if s.startsWith "NEEDS_BUILD:" then
                add_warning r (pfx ++ ": Image requires a build step")
              else r
          | _ => r
        match dictGet d "securityContext" with
        | some (.vdict scd) =>
            if pyTruthyV (dictGet scd "privileged") then
              add_error r (pfx ++ ": Privileged containers are not allowed")
            else container_resource_checks d pfx r
        | _ => container_resource_checks d pfx r
  | _ => add_error r (pfx ++ ": Container is not a dictionary")

/-- `ManifestValidator._validate_deployment` (lines 186-253).  The
replicas cap mutates `manifest["spec"]` in place, so it survives into the
returned manifest exactly when the manifest holds its own `spec`
dictionary. -/
def validate_deployment (m : List (String × Val)) (pfx : String)
    (r : ValidationResult) : List (String × Val) × ValidationResult :=
  let specPresent := match dictGet m "spec" with
    | some (.vdict _) => true
    | _ => false
  let spec := dictD (dictGet m "spec")
  let capped := match dictGet spec "replicas" with
    | some (.vint n) => decide (n > 2)
    | _ => false
  let r := if capped then add_warning r (pfx ++ ": Capped replicas to 2")
           else r
  let spec := if capped then dictSet spec "replicas" (.vint 2) else spec
  let m := if capped && specPresent then dictSet m "spec" (.vdict spec)
           else m
  let template := dictD (dictGet spec "template")
  let podSpecOk := match dictGet template "spec" with
    | some (.vdict _) => true
    | none => true
    | some _ => false
  if !podSpecOk then (m, add_error r (pfx ++ ": Missing spec.template.spec"))
  else
    let ps := dictD (dictGet template "spec")
    if pyTruthyV (dictGet ps "hostNetwork") then
      (m, add_error r (pfx ++ ": hostNetwork is not allowed"))
    else if pyTruthyV (dictGet ps "hostPID") then
      (m, add_error r (pfx ++ ": hostPID is not allowed"))
    else if pyTruthyV (dictGet ps "hostIPC") then
      (m, add_error r (pfx ++ ": hostIPC is not allowed"))
    else
      let containersOk := match dictGet ps "containers" with
        | some (.vlist l) => !l.isEmpty
        | _ => false
      if !containersOk then
        (m, add_error r (pfx ++ ": No containers defined"))
      else
        let cs := match dictGet ps "containers" with
          | some (.vlist l) => l
          | _ => []
        let r := cs.foldl (fun acc c => validate_container c pfx acc) r
        let vols := match dictGet ps "volumes" with
          | some (.vlist l) => l
          | _ => []
        let bad := vols.any (fun v => match v with
          | .vdict vd => pyTruthyV (dictGet vd "hostPath")
          | _ => false)
        if bad then (m, add_error r (pfx ++ ": hostPath volumes are not allowed"))
        else (m, r)

/-- `ManifestValidator._validate_service` (lines 332-347). -/
def validate_service (spec : List (String × Val)) (pfx : String)
    (r : ValidationResult) : ValidationResult :=
  let svcType := match dictGet spec "type" with
    | some v => some v
    | none => some (Val.vstr "ClusterIP")
  let r := if valInStrSetO svcType internalOnlyServiceTypes then
             add_error r (pfx ++ ": Service type is not allowed in preview environments")
           else r
  if !pyTruthyV (dictGet spec "ports") then
    add_warning r (pfx ++ ": No ports defined")
  else r

/-- `ManifestValidator._validate_ingress` (lines 349-357). -/
def validate_ingress (spec : List (String × Val)) (pfx : String)
    (r : ValidationResult) : ValidationResult :=
  if !pyTruthyV (dictGet spec "rules") then
    add_warning r (pfx ++ ": No rules defined")
  else r

/-- `ManifestValidator._validate_pvc` (lines 359-374). -/
def validate_pvc (spec : List (String × Val)) (pfx : String)
    (r : ValidationResult) : ValidationResult :=
  let r := if !pyTruthyV (dictGet spec "accessModes") then
             add_warning r (pfx ++ ": No accessModes specified")
           else r
  let requests := dictD (dictGet (dictD (dictGet spec "resources")) "requests")
  if !pyTruthyV (dictGet requests "storage") then
    add_warning r (pfx ++ ": No storage request specified")
  else r

/-- `ManifestValidator._validate_and_correct` (lines 101-184).  A
non-string `metadata.name` makes the source raise `TypeError` inside the
regex match, producing no result at all; it is refused here.  The
namespace is force-corrected in place before the kind-specific checks. -/
def validate_and_correct (manifest : Val) (expected : String) (i : Nat)
    (r : ValidationResult) : Option Val × ValidationResult :=
  let pfx := "Manifest[" ++ toString i ++ "]"
  match manifest with
  | .vdict m =>
      let kind := dictGet m "kind"
      let apiVersion := dictGet m "apiVersion"
      if !pyTruthyV kind then (none, add_error r (pfx ++ ": Missing kind"))
      else if !pyTruthyV apiVersion then
        (none, add_error r (pfx ++ ": Missing apiVersion"))
      else
        match dictGet m "metadata" with
        | some (.vdict md) =>
            let name := dictGet md "name"
            if !pyTruthyV name then
              (none, add_error r (pfx ++ ": Missing metadata.name"))
            else if !valInStrSetO kind allowedKinds then
              (none, add_error r (pfx ++ ": Disallowed kind"))
            else if !valInStrSetO apiVersion allowedApiVersions then
              (none, add_error r (pfx ++ ": Disallowed apiVersion"))
            else
              let nameOk := match name with
                | some (.vstr s) => dnsNameOk s.toList
                | _ => false
              if !nameOk then
                (none, add_error r (pfx ++ ": Invalid resource name"))
              else
                let actualNs := dictGet md "namespace"
                let nsEq := match actualNs with
                  | some (.vstr s) => s == expected
                  | _ => false
                let r := if !nsEq && pyTruthyV actualNs then
                           add_warning r (pfx ++ ": Corrected namespace")
                         else r
                let m1 := if nsEq then m
                          else dictSet m "metadata"
                            (.vdict (dictSet md "namespace" (.vstr expected)))
                let spec := dictD (dictGet m1 "spec")
                match kind with
                | some (.vstr "Deployment") =>
                    let p := validate_deployment m1 pfx r
                    (some (.vdict p.1), p.2)
                | some (.vstr "Service") =>
                    (some (.vdict m1), validate_service spec pfx r)
                | some (.vstr "Ingress") =>
                    (some (.vdict m1), validate_ingress spec pfx r)
                | some (.vstr "PersistentVolumeClaim") =>
                    (some (.vdict m1), validate_pvc spec pfx r)
                | _ => (some (.vdict m1), r)
        | _ => (none, add_error r (pfx ++ ": Missing or invalid metadata"))
  | _ => (none, add_error r (pfx ++ ": Not a dictionary"))

/-- The indexed loop of `ManifestValidator.validate_all` (lines 88-94):
validate each manifest, collecting the corrected ones. -/
def validate_all_go (expected : String) :
    List Val → Nat → ValidationResult → List Val × ValidationResult
  | [], _, r => ([], r)
  | mnf :: rest, i, r =>
      let p := validate_and_correct mnf expected i r
      let q := validate_all_go expected rest (i + 1) p.2
      (match p.1 with
       | some cm => cm :: q.1
       | none => q.1, q.2)

/-- `ManifestValidator.validate_all` (lines 62-99). -/
def validate_all (manifests : Val) (expected_namespace : String) :
    ValidationResult :=
  match manifests with
  | .vlist l =>
      if l.isEmpty then
        add_error emptyValidationResult "No manifests generated"
      else if l.length > 50 then
        add_error emptyValidationResult "Too many manifests"
      else
        let p := validate_all_go expected_namespace l 0 emptyValidationResult
        if p.2.is_valid then { p.2 with corrected_manifests := some p.1 }
        else p.2
  | _ => add_error emptyValidationResult "AI response is not a list of manifests"

/-- Whether a manifest dictionary carries `metadata.namespace` equal to
the expected namespace. -/
def hasNamespaceD (d : List (String × Val)) (ns : String) : Bool :=
  match dictGet d "metadata" with
  | some (.vdict md) =>
      match dictGet md "namespace" with
      | some (.vstr s) => s == ns
      | _ => false
  | _ => false

/-- Whether a manifest value carries `metadata.namespace` equal to the
expected namespace. -/
def hasNamespace (v : Val) (ns : String) : Bool :=
  match v with
  | .vdict d => hasNamespaceD d ns
  | _ => false

/-! ### Stale-environment sweep (`tasks/cleanup.py`) -/

/-- One environment's passage through `cleanup_stale_environments`
(`tasks/cleanup.py` lines 44-137).  The three phases run in order:
stuck-PROVISIONING, stuck-DESTROYING (both gated on
`updated_at < now - 30` minutes), then READY-with-missing-namespace.  The
namespace is deleted only if it exists, and the result of the deletion is
ignored (`deleteOk` is threaded but never consulted, as in the source).
The second component counts delete calls issued for this environment. -/
def cleanup_stale_one (now : Int) (nsExists deleteOk : Bool)
    (e : Environment) : Environment × Nat :=
  let stale1 := e.status == EnvironmentStatus.provisioning
                  && decide (e.updated_at < now - 30)
  let d1 := if stale1 && nsExists then 1 else 0
  let e1 := if stale1 then
              update_environment_status e EnvironmentStatus.failed
                (some "Environment stuck in provisioning state".toList) now
            else e
  let stale2 := e1.status == EnvironmentStatus.destroying
                  && decide (e1.updated_at < now - 30)
  let d2 := if stale2 && nsExists then 1 else 0
  let e2 := if stale2 then
              update_environment_status e1 EnvironmentStatus.destroyed none now
            else e1
  let drift := e2.status == EnvironmentStatus.ready && !nsExists
  let e3 := if drift then
              update_environment_status e2 EnvironmentStatus.failed
                (some "Namespace no longer exists".toList) now
            else e2
  (e3, d1 + d2)

/-- `cleanup_stale_environments` over the whole table: each row is queried
by status and updated independently; rows touched by an earlier phase no
longer match the later phases' status filters. -/
def cleanup_stale_environments (now : Int)
    (nsExists deleteOk : Environment → Bool) (db : List Environment) :
    List Environment :=
  db.map (fun e => (cleanup_stale_one now (nsExists e) (deleteOk e) e).1)

/-! ### Webhook opened-handler (`api/webhooks.py`) -/

/-- `get_environment_by_pr` (`crud/environment.py` lines 18-27) as a
predicate on a row. -/
def envMatchesPr (repository_full_name : List Char) (pr_number : Nat)
    (e : Environment) : Bool :=
  e.repository_full_name == repository_full_name && e.pr_number == pr_number

/-- `get_environment_by_pr`: first row for the (repository, PR) pair. -/
def get_environment_by_pr (db : List Environment)
    (repository_full_name : List Char) (pr_number : Nat) :
    Option Environment :=
  db.find? (envMatchesPr repository_full_name pr_number)

/-- Observable outcome of one run of `handle_pull_request_opened`: the
table afterwards, how many environment rows and deployment rows the run
inserted, and how many `create_namespace` calls it issued. -/
structure OpenedOutcome where
  db : List Environment
  envRowsInserted : Nat
  deploymentRowsInserted : Nat
  namespaceCreateCalls : Nat

/-- `handle_pull_request_opened` (`api/webhooks.py` lines 22-171).  If a
row for (repository, PR) exists the handler returns immediately;
otherwise it inserts a PENDING row with generated namespace, inserts the
first deployment, performs one `create_namespace` call and moves the row
to READY or FAILED according to the call's outcome. -/
def handle_pull_request_opened (db : List Environment)
    (repository_full_name repository_name : List Char) (pr_number : Nat)
    (pr_title branch_name commit_sha : List Char) (k8sOk : Bool)
    (now : Int) : OpenedOutcome :=
  match get_environment_by_pr db repository_full_name pr_number with
  | some _ => ⟨db, 0, 0, 0⟩
  | none =>
      let env := create_environment repository_full_name repository_name
        pr_number pr_title branch_name commit_sha now
      let env := if k8sOk then
                   update_environment_status env EnvironmentStatus.ready
                     none now
                 else
                   update_environment_status env EnvironmentStatus.failed
                     (some "Failed to create Kubernetes namespace".toList) now
      ⟨db ++ [env], 1, 1, 1⟩

/-! ### `DeploymentService.apply_manifest`, Deployment branch
(`services/deployment.py` lines 395-482) -/

/-- The resource requests and limits attached to a container object sent
to the cluster. -/
structure K8sResources where
  requests : List (String × String)
  limits : List (String × String)
deriving DecidableEq

/-- The fixed preview resources hard-coded in the `V1ResourceRequirements`
of `apply_manifest` (`services/deployment.py` lines 448-457). -/
def previewResources : K8sResources :=
  ⟨[("cpu", "100m"), ("memory", "128Mi")],
   [("cpu", "500m"), ("memory", "512Mi")]⟩

/-- A `V1Container` as constructed by `apply_manifest`. -/
structure K8sContainer where
  name : Option Val
  image : Option Val
  env : List (Option Val × Option Val)
  ports : List (Option Val)
  resources : K8sResources

/-- A `V1EnvVar` list entry from a manifest value. -/
def build_env_var (e : Val) : Option Val × Option Val :=
  match e with
  | .vdict ed => (dictGet ed "name", dictGet ed "value")
  | _ => (none, none)

/-- The container constructor inside the Deployment branch of
`apply_manifest` (`services/deployment.py` lines 437-458): name, image,
env and ports come from the manifest, the resources are always the fixed
preview requests and limits. -/
def build_container (c : Val) : K8sContainer :=
  match c with
  | .vdict d =>
      { name := dictGet d "name"
        image := dictGet d "image"
        env := (match dictGet d "env" with
                | some (.vlist l) => l
                | _ => []).map build_env_var
        ports := (match dictGet d "ports" with
                  | some (.vlist l) => l
                  | _ => []).map (fun (p : Val) => match p with
                    | .vdict pd => dictGet pd "containerPort"
                    | _ => none)
        resources := previewResources }
  | _ => ⟨none, none, [], [], previewResources⟩

/-- The `V1Deployment` body built by the Deployment branch of
`apply_manifest`.  The namespace field is `nspace` (`namespace` is
reserved in Lean). -/
structure K8sDeployment where
  name : Val
  nspace : Val
  replicas : Option Val
  containers : List K8sContainer

/-- The Deployment branch of `apply_manifest` (`services/deployment.py`
lines 410-464): `manifest["metadata"]["namespace"]` and `["name"]` raise
`KeyError` when absent (the surrounding handler then returns `False`,
modelled by `none`); containers are rebuilt from
`spec.template.spec.containers` with the fixed preview resources. -/
def apply_manifest_deployment (manifest : Val) : Option K8sDeployment :=
  match manifest with
  | .vdict m =>
      match dictGet m "kind" with
      | some (.vstr "Deployment") =>
          match dictGet m "metadata" with
          | some (.vdict md) =>
              match dictGet md "namespace", dictGet md "name" with
              | some nsv, some namev =>
                  let spec := dictD (dictGet m "spec")
                  let template := dictD (dictGet spec "template")
                  let podSpec := dictD (dictGet template "spec")
                  let cs := match dictGet podSpec "containers" with
                    | some (.vlist l) => l
                    | _ => []
                  some { name := namev
                         nspace := nsv
                         replicas := dictGet spec "replicas"
                         containers := cs.map build_container }
              | _, _ => none
          | _ => none
      | _ => none
  | _ => none

/-! ### Specification-side definitions and concrete sample inputs -/

/-- Modelled from the spec (§3, §6): the namespace naming rule
`pr-{pr_number}-{lowercased-repo-name, underscores→hyphens, truncated to
20 chars}`, written out from the spec's words for comparison with
`generate_namespace`. -/
def specNamespace (pr_number : Nat) (repository_name : List Char) :
    List Char :=
  ['p', 'r', '-'] ++ natDigits pr_number ++ ['-']
    ++ (((repository_name.map Char.toLower).map
          (fun c => if c == '_' then '-' else c)).take 20)

/-- A sample environment row with the given status. -/
def mkSampleEnv (status : EnvironmentStatus) : Environment :=
  { repository_full_name := ['o', '/', 'a']
    repository_name := ['a']
    pr_number := 1
    pr_title := []
    branch_name := ['b']
    commit_sha := ['c']
    k8s_namespace := ['p', 'r', '-', '1', '-', 'a']
    status := status
    error_message := none
    last_deployed_at := none
    destroyed_at := none
    updated_at := 0 }

/-- A sample deployment row. -/
def sampleDeployment : Deployment :=
  { commit_sha := ['c']
    commit_message := none
    status := DeploymentStatus.queued
    started_at := none
    completed_at := none
    error_message := none
    logs := none }

/-- A well-formed one-manifest input for the validator. -/
def sampleManifests : Val :=
  Val.vlist [Val.vdict
    [("kind", Val.vstr "ConfigMap"),
     ("apiVersion", Val.vstr "v1"),
     ("metadata", Val.vdict [("name", Val.vstr "app-config")]),
     ("data", Val.vdict [("KEY", Val.vstr "value")])]]

/-- A Deployment manifest whose container carries its own resource
limits, which `apply_manifest` discards. -/
def sampleDeployManifest : Val :=
  Val.vdict
    [("kind", Val.vstr "Deployment"),
     ("apiVersion", Val.vstr "apps/v1"),
     ("metadata", Val.vdict
       [("name", Val.vstr "web"),
        ("namespace", Val.vstr "pr-7-widget")]),
     ("spec", Val.vdict
       [("replicas", Val.vint 1),
        ("template", Val.vdict
          [("spec", Val.vdict
            [("containers", Val.vlist
              [Val.vdict
                [("name", Val.vstr "web"),
                 ("image", Val.vstr "nginx:latest"),
                 ("resources", Val.vdict
                   [("limits", Val.vdict
                     [("cpu", Val.vstr "4"),
                      ("memory", Val.vstr "8Gi")])])]])])])])]

/-- A default deployment object, used only to state closed corollaries. -/
def defaultK8sDeployment : K8sDeployment :=
  ⟨Val.vnone, Val.vnone, none, []⟩

/-! ## Theorems -/

/-- C1 (counterexample): `update_environment_status` carries out
DESTROYED→READY, which is not an edge of the §4.8 lifecycle graph, so the
store does not restrict itself to legal transitions. -/
theorem c1_illegal_transition_performed :
    (update_environment_status (mkSampleEnv EnvironmentStatus.destroyed)
      EnvironmentStatus.ready none 5).status = EnvironmentStatus.ready
    ∧ legalTransition EnvironmentStatus.destroyed EnvironmentStatus.ready
        = false :=
  ⟨rfl, rfl⟩

/-- C1 (amended): `update_environment_status` performs the requested
status change unconditionally — it never consults the lifecycle graph, so
the resulting status is always the requested one, legal edge or not. -/
theorem c1_status_update_unchecked :
    ∀ (env : Environment) (s : EnvironmentStatus)
      (msg : Option (List Char)) (now : Int),
      (update_environment_status env s msg now).status = s := by
  intro env s msg now
  unfold update_environment_status
  dsimp only
  split_ifs <;> rfl

/-- C2 (code bug): the provisioning task calls
`update_deployment_status` with the keyword arguments `ai_generated` and
`ai_plan`, but the store function accepts only `error_message` and
`logs`, so the call raises `TypeError` instead of recording the values. -/
theorem c2_update_deployment_status_typeerror :
    invoke_update_deployment_status provisionTaskCallKeywords
      sampleDeployment DeploymentStatus.success none none 0 = none
    ∧ pythonCallBinds updateDeploymentStatusKeywords
        provisionTaskCallKeywords = false :=
  ⟨rfl, rfl⟩

/-- C3 (counterexample): in disabled mode every cluster write returns the
same value (`False`) as an ordinary operation failure, so the
"not configured" case is not distinguishable by the caller. -/
theorem c3_not_configured_indistinguishable :
    k8s_create_namespace false ApiOutcome.success
      = k8s_create_namespace true ApiOutcome.otherError
    ∧ k8s_delete_namespace false ApiOutcome.success
        = k8s_delete_namespace true ApiOutcome.otherError
    ∧ k8s_create_resource_quota false ApiOutcome.success
        = k8s_create_resource_quota true ApiOutcome.otherError :=
  ⟨rfl, rfl, rfl⟩

/-- C3 (amended): when the client is not configured, every write
operation of the cluster driver returns `False` — the same value an
ordinary operation failure returns — so callers cannot tell the two apart
from the return value. -/
theorem c3_disabled_writes_return_false :
    ∀ outcome : ApiOutcome,
      k8s_create_namespace false outcome = false
      ∧ k8s_delete_namespace false outcome = false
      ∧ k8s_create_resource_quota false outcome = false
      ∧ k8s_create_namespace false outcome
          = k8s_create_namespace true ApiOutcome.otherError
      ∧ k8s_delete_namespace false outcome
          = k8s_delete_namespace true ApiOutcome.otherError
      ∧ k8s_create_resource_quota false outcome
          = k8s_create_resource_quota true ApiOutcome.otherError := by
  intro _
  exact ⟨rfl, rfl, rfl, rfl, rfl, rfl⟩

/-- C5 (counterexample): a second entry into READY overwrites
`last_deployed_at` (value `3` after re-entry at time 3, not the first
entry's value `1`), so it is not set only on the first entry. -/
theorem c5_last_deployed_at_moves :
    (update_environment_status
      (update_environment_status
        (update_environment_status (mkSampleEnv EnvironmentStatus.pending)
          EnvironmentStatus.ready none 1)
        EnvironmentStatus.updating none 2)
      EnvironmentStatus.ready none 3).last_deployed_at = some 3
    ∧ (update_environment_status (mkSampleEnv EnvironmentStatus.pending)
        EnvironmentStatus.ready none 1).last_deployed_at = some 1
    ∧ some (3 : Int) ≠ some (1 : Int) :=
  ⟨rfl, rfl, by decide⟩

/-- C5 (amended): `update_environment_status` stamps `last_deployed_at`
with the current time on every entry into READY (overwriting earlier
values) and stamps `destroyed_at` on every entry into DESTROYED, never
clearing either field on other transitions. -/
theorem c5_timestamps_overwritten :
    ∀ (env : Environment) (s : EnvironmentStatus)
      (msg : Option (List Char)) (now : Int),
      (update_environment_status env s msg now).last_deployed_at
        = (if s = EnvironmentStatus.ready then some now
           else env.last_deployed_at)
      ∧ (update_environment_status env s msg now).destroyed_at
          = (if s = EnvironmentStatus.destroyed then some now
             else env.destroyed_at) := by
  intro env s msg now
  cases s <;>
    · unfold update_environment_status
      dsimp only
      split_ifs <;> simp_all

/-- Decimal digit characters are lowercase alphanumerics. -/
theorem digitChar_alnum : ∀ d : Nat, d < 10 →
    isLowerAlnum (digitChar d) = true := by
  intro d h
  interval_cases d <;> decide

/-- The fuel-indexed decimal rendering is nonempty and consists of
alphanumeric characters whenever the fuel suffices. -/
theorem natDigitsAux_spec : ∀ fuel n : Nat, n < fuel →
    natDigitsAux fuel n ≠ [] ∧
      (natDigitsAux fuel n).all isLowerAlnum = true := by
  intro fuel
  induction fuel with
  | zero => intro n h; omega
  | succ f ih =>
      intro n _
      unfold natDigitsAux
      by_cases h10 : n < 10
      · simp [h10, digitChar_alnum n h10]
      · have hdiv : n / 10 < f := by
          have hlt : n / 10 < n := Nat.div_lt_self (by omega) (by omega)
          omega
        obtain ⟨h1, h2⟩ := ih (n / 10) hdiv
        have hmod : isLowerAlnum (digitChar (n % 10)) = true :=
          digitChar_alnum (n % 10) (Nat.mod_lt _ (by omega))
        simp [h10, List.all_append, h1, h2, hmod]

/-- `natDigits` is nonempty. -/
theorem natDigits_ne_nil (n : Nat) : natDigits n ≠ [] :=
  (natDigitsAux_spec (n + 1) n (by omega)).1

/-- `natDigits` consists of alphanumeric characters. -/
theorem natDigits_alnum (n : Nat) :
    (natDigits n).all isLowerAlnum = true :=
  (natDigitsAux_spec (n + 1) n (by omega)).2

/-- Alphanumerics are label characters. -/
theorem all_alnum_label (l : List Char) (h : l.all isLowerAlnum = true) :
    l.all isLabelChar = true := by
  rw [List.all_eq_true] at *
  intro c hc
  have := h c hc
  simp only [isLabelChar]
  simp [this]

/-- The final character of an append with nonempty right part is the
final character of the right part. -/
theorem lastIsAlnum_append : ∀ xs ys : List Char, ys ≠ [] →
    lastIsAlnum (xs ++ ys) = lastIsAlnum ys := by
  intro xs
  induction xs with
  | nil => simp
  | cons x xs ih =>
      intro ys hy
      cases hxs : xs ++ ys with
      | nil => exact absurd (List.append_eq_nil.mp hxs).2 hy
      | cons c rest =>
          rw [List.cons_append, hxs]
          rw [show lastIsAlnum (x :: c :: rest) = lastIsAlnum (c :: rest)
            from rfl]
          rw [← hxs]
          exact ih ys hy

/-- C4 (counterexample): the store accepts the repository name `my_`,
whose generated namespace `pr-7-my-` matches the naming formula but ends
in a hyphen, hence is not a valid DNS label. -/
theorem c4_namespace_not_dns_label :
    (create_environment ['o'] ['m', 'y', '_'] 7 [] [] [] 0).k8s_namespace
      = specNamespace 7 ['m', 'y', '_']
    ∧ isValidDNSLabel
        ((create_environment ['o'] ['m', 'y', '_'] 7 [] [] []
          0).k8s_namespace) = false :=
  ⟨rfl, by decide⟩

/-- C4 (amended): every environment created through the store gets the
namespace `pr-{pr_number}-{lowercased repo name, underscores→hyphens,
first 20 chars}`; the namespace is a valid DNS label of at most 63
characters provided the transformed repository slug is nonempty, consists
of label characters, ends in an alphanumeric (which can fail, e.g. for
repository names ending in `_`), and the PR number has at most 39 decimal
digits. -/
theorem c4_namespace_formula_and_dns :
    ∀ (repoFull repoName : List Char) (pr : Nat)
      (title branch sha : List Char) (now : Int),
      (create_environment repoFull repoName pr title branch sha
        now).k8s_namespace = specNamespace pr repoName
      ∧ (repoSlug repoName ≠ [] →
         (repoSlug repoName).all isLabelChar = true →
         lastIsAlnum (repoSlug repoName) = true →
         (natDigits pr).length ≤ 39 →
         isValidDNSLabel ((create_environment repoFull repoName pr title
           branch sha now).k8s_namespace) = true) := by
  intro repoFull repoName pr title branch sha now
  constructor
  · rfl
  · intro h1 h2 h3 h4
    show isValidDNSLabel
      (['p', 'r', '-'] ++ natDigits pr ++ ['-'] ++ repoSlug repoName) = true
    have hslug : (repoSlug repoName).length ≤ 20 := by
      simp only [repoSlug]
      exact List.length_take_le 20 _
    have hlen : (['p', 'r', '-'] ++ natDigits pr ++ ['-']
        ++ repoSlug repoName).length ≤ 63 := by
      simp only [List.length_append, List.length_cons, List.length_nil]
      omega
    have hall : (['p', 'r', '-'] ++ natDigits pr ++ ['-']
        ++ repoSlug repoName).all isLabelChar = true := by
      simp only [List.all_append, List.all_cons, List.all_nil,
        Bool.and_eq_true]
      refine ⟨⟨⟨?_, all_alnum_label _ (natDigits_alnum pr)⟩, ?_⟩, h2⟩
      · decide
      · decide
    have hlast : lastIsAlnum (['p', 'r', '-'] ++ natDigits pr ++ ['-']
        ++ repoSlug repoName) = true := by
      rw [show ['p', 'r', '-'] ++ natDigits pr ++ ['-'] ++ repoSlug repoName
          = (['p', 'r', '-'] ++ natDigits pr ++ ['-']) ++ repoSlug repoName
        by simp [List.append_assoc]]
      rw [lastIsAlnum_append _ _ h1]
      exact h3
    rw [show (['p', 'r', '-'] ++ natDigits pr ++ ['-'] ++ repoSlug repoName)
        = 'p' :: ('r' :: '-' :: (natDigits pr ++ ['-'] ++ repoSlug repoName))
      by simp]
    rw [show isValidDNSLabel
        ('p' :: ('r' :: '-' :: (natDigits pr ++ ['-'] ++ repoSlug repoName)))
        = (('p' :: ('r' :: '-' :: (natDigits pr ++ ['-']
            ++ repoSlug repoName))).length ≤ 63 && isLowerAlnum 'p'
          && ('p' :: ('r' :: '-' :: (natDigits pr ++ ['-']
            ++ repoSlug repoName))).all isLabelChar
          && lastIsAlnum ('p' :: ('r' :: '-' :: (natDigits pr ++ ['-']
            ++ repoSlug repoName)))) from rfl]
    simp only [Bool.and_eq_true, decide_eq_true_eq]
    refine ⟨⟨⟨?_, by decide⟩, ?_⟩, ?_⟩
    · simpa using hlen
    · simpa using hall
    · simpa using hlast

/-- C4 (witness): for repository `widget` and PR 7 the generated
namespace obeys the formula and is a valid DNS label. -/
theorem c4_namespace_witness :
    (create_environment ['o'] ['w', 'i', 'd', 'g', 'e', 't'] 7 [] [] []
      0).k8s_namespace = specNamespace 7 ['w', 'i', 'd', 'g', 'e', 't']
    ∧ isValidDNSLabel
        ((create_environment ['o'] ['w', 'i', 'd', 'g', 'e', 't'] 7 [] [] []
          0).k8s_namespace) = true := by
  have h := c4_namespace_formula_and_dns ['o'] ['w', 'i', 'd', 'g', 'e', 't']
    7 [] [] [] 0
  exact ⟨h.1, h.2 (by decide) (by decide) (by decide) (by decide)⟩

/-- Helper: the status written by `update_environment_status` is the
requested one. -/
theorem upd_status (e : Environment) (s : EnvironmentStatus)
    (m : Option (List Char)) (now : Int) :
    (update_environment_status e s m now).status = s := by
  unfold update_environment_status
  dsimp only
  split_ifs <;> rfl

/-- Helper: `update_environment_status` leaves the identifying columns of
the row unchanged. -/
theorem upd_keys (e : Environment) (s : EnvironmentStatus)
    (m : Option (List Char)) (now : Int) :
    (update_environment_status e s m now).repository_full_name
        = e.repository_full_name
    ∧ (update_environment_status e s m now).pr_number = e.pr_number := by
  unfold update_environment_status
  dsimp only
  split_ifs <;> exact ⟨rfl, rfl⟩

/-- Helper: `find?` skips a prefix in which nothing matches. -/
theorem find?_append_of_none {α : Type} (p : α → Bool) :
    ∀ l₁ l₂ : List α, l₁.find? p = none →
      (l₁ ++ l₂).find? p = l₂.find? p := by
  intro l₁
  induction l₁ with
  | nil => intro l₂ _; rfl
  | cons x t ih =>
      intro l₂ h
      cases hpx : p x with
      | true => simp [List.find?_cons, hpx] at h
      | false =>
          rw [List.cons_append, List.find?_cons, hpx]
          rw [List.find?_cons, hpx] at h
          exact ih l₂ h

/-- C8: one run of the stale sweep turns every DESTROYING environment
whose `updated_at` is older than 30 minutes into DESTROYED — issuing a
namespace delete exactly when the namespace exists, and independently of
whether that delete succeeds — while DESTROYING environments updated
within the last 30 minutes pass through unchanged.  The last conjunct
lifts the per-row fact to the sweep over the whole table. -/
theorem c8_stale_destroying_swept :
    ∀ (now : Int) (nsEx delOk : Bool) (e : Environment),
      (e.status = EnvironmentStatus.destroying →
        e.updated_at < now - 30 →
        (cleanup_stale_one now nsEx delOk e).1.status
            = EnvironmentStatus.destroyed
        ∧ (cleanup_stale_one now nsEx delOk e).2
            = (if nsEx then 1 else 0))
      ∧ (e.status = EnvironmentStatus.destroying →
          ¬ e.updated_at < now - 30 →
          cleanup_stale_one now nsEx delOk e = (e, 0))
      ∧ (∀ db : List Environment, e ∈ db →
          (cleanup_stale_one now nsEx delOk e).1 ∈
            cleanup_stale_environments now (fun _ => nsEx) (fun _ => delOk)
              db) := by
  intro now nsEx delOk e
  refine ⟨?_, ?_, ?_⟩
  · intro hs ht
    unfold cleanup_stale_one
    dsimp only
    simp [hs, ht, upd_status]
  · intro hs ht
    unfold cleanup_stale_one
    dsimp only
    simp [hs, ht]
  · intro db hmem
    exact List.mem_map_of_mem _ hmem

/-- C8 (witness): a DESTROYING row last updated at minute 0 is swept at
minute 100 into DESTROYED with one delete call; a DESTROYING row updated
at minute 90 is untouched. -/
theorem c8_witness_eval :
    (cleanup_stale_one 100 true true
      (mkSampleEnv EnvironmentStatus.destroying)).1.status
        = EnvironmentStatus.destroyed
    ∧ (cleanup_stale_one 100 true true
        (mkSampleEnv EnvironmentStatus.destroying)).2 = 1
    ∧ cleanup_stale_one 100 false false
        { mkSampleEnv EnvironmentStatus.destroying with updated_at := 90 }
      = ({ mkSampleEnv EnvironmentStatus.destroying with updated_at := 90 },
         0) := by
  have h1 := (c8_stale_destroying_swept 100 true true
    (mkSampleEnv EnvironmentStatus.destroying)).1 rfl (by decide)
  have h2 := (c8_stale_destroying_swept 100 false false
    { mkSampleEnv EnvironmentStatus.destroying with
        updated_at := 90 }).2.1 rfl (by decide)
  exact ⟨h1.1, by simpa using h1.2, h2⟩

/-- C7: handling the same pull-request-opened event twice for one
(repository, PR) pair is idempotent.  Starting from a table with no row
for the pair, the second run finds the row the first run inserted,
returns early (no new environment row, no new deployment row, no
namespace-creation call) and exactly one matching row exists
afterwards. -/
theorem c7_duplicate_open_idempotent :
    ∀ (db : List Environment) (repoFull repoName : List Char) (pr : Nat)
      (t b sha t' b' sha' : List Char) (k1 k2 : Bool) (n1 n2 : Int),
      (db.filter (envMatchesPr repoFull pr)).length = 0 →
      ((handle_pull_request_opened
          (handle_pull_request_opened db repoFull repoName pr t b sha k1
            n1).db
          repoFull repoName pr t' b' sha' k2 n2).db.filter
            (envMatchesPr repoFull pr)).length = 1
      ∧ (handle_pull_request_opened
          (handle_pull_request_opened db repoFull repoName pr t b sha k1
            n1).db
          repoFull repoName pr t' b' sha' k2 n2).db
          = (handle_pull_request_opened db repoFull repoName pr t b sha k1
              n1).db
      ∧ (handle_pull_request_opened
          (handle_pull_request_opened db repoFull repoName pr t b sha k1
            n1).db
          repoFull repoName pr t' b' sha' k2 n2).envRowsInserted = 0
      ∧ (handle_pull_request_opened
          (handle_pull_request_opened db repoFull repoName pr t b sha k1
            n1).db
          repoFull repoName pr t' b' sha' k2 n2).deploymentRowsInserted = 0
      ∧ (handle_pull_request_opened
          (handle_pull_request_opened db repoFull repoName pr t b sha k1
            n1).db
          repoFull repoName pr t' b' sha' k2 n2).namespaceCreateCalls
          = 0 := by
  intro db repoFull repoName pr t b sha t' b' sha' k1 k2 n1 n2 h
  have hfilter : db.filter (envMatchesPr repoFull pr) = [] :=
    List.length_eq_zero.mp h
  have hnone : db.find? (envMatchesPr repoFull pr) = none := by
    rw [List.find?_eq_none]
    intro x hx
    exact List.filter_eq_nil_iff.mp hfilter x hx
  have henv : ∀ (env : Environment),
      env.repository_full_name = repoFull → env.pr_number = pr →
      envMatchesPr repoFull pr env = true := by
    intro env h1 h2
    simp [envMatchesPr, h1, h2]
  set newEnv := (if k1 then
      update_environment_status
        (create_environment repoFull repoName pr t b sha n1)
        EnvironmentStatus.ready none n1
    else
      update_environment_status
        (create_environment repoFull repoName pr t b sha n1)
        EnvironmentStatus.failed
        (some "Failed to create Kubernetes namespace".toList) n1)
    with hnew
  have hmatch : envMatchesPr repoFull pr newEnv = true := by
    rw [hnew]
    cases k1
    · exact henv _
        (upd_keys (create_environment repoFull repoName pr t b sha n1)
          EnvironmentStatus.failed
          (some "Failed to create Kubernetes namespace".toList) n1).1
        (upd_keys (create_environment repoFull repoName pr t b sha n1)
          EnvironmentStatus.failed
          (some "Failed to create Kubernetes namespace".toList) n1).2
    · exact henv _
        (upd_keys (create_environment repoFull repoName pr t b sha n1)
          EnvironmentStatus.ready none n1).1
        (upd_keys (create_environment repoFull repoName pr t b sha n1)
          EnvironmentStatus.ready none n1).2
  have hr1 : (handle_pull_request_opened db repoFull repoName pr t b sha k1
      n1).db = db ++ [newEnv] := by
    unfold handle_pull_request_opened
    rw [show get_environment_by_pr db repoFull pr = none from hnone]
  have hfind2 : (db ++ [newEnv]).find? (envMatchesPr repoFull pr)
      = some newEnv := by
    rw [find?_append_of_none _ db [newEnv] hnone]
    simp [List.find?_cons, hmatch]
  have hr2 : handle_pull_request_opened (db ++ [newEnv]) repoFull repoName
      pr t' b' sha' k2 n2 = ⟨db ++ [newEnv], 0, 0, 0⟩ := by
    unfold handle_pull_request_opened
    rw [show get_environment_by_pr (db ++ [newEnv]) repoFull pr
        = some newEnv from hfind2]
  rw [hr1, hr2]
  refine ⟨?_, rfl, rfl, rfl, rfl⟩
  simp [List.filter_append, hfilter, hmatch]

/-- C7 (witness): delivering the same opened event twice against an empty
table leaves exactly one matching row, and the second run issues no
namespace creation. -/
theorem c7_witness_eval :
    ((handle_pull_request_opened
        (handle_pull_request_opened [] ['o'] ['a'] 1 [] ['b'] ['c'] true
          0).db
        ['o'] ['a'] 1 [] ['b'] ['c'] true 5).db.filter
          (envMatchesPr ['o'] 1)).length = 1
    ∧ (handle_pull_request_opened
        (handle_pull_request_opened [] ['o'] ['a'] 1 [] ['b'] ['c'] true
          0).db
        ['o'] ['a'] 1 [] ['b'] ['c'] true 5).namespaceCreateCalls = 0 := by
  have h := c7_duplicate_open_idempotent [] ['o'] ['a'] 1 [] ['b'] ['c']
    [] ['b'] ['c'] true true 0 5 rfl
  exact ⟨h.1, h.2.2.2.2⟩

/-- Helper: the container builder of `apply_manifest` attaches the fixed
preview resources to every container it constructs. -/
theorem build_container_resources (v : Val) :
    (build_container v).resources = previewResources := by
  cases v <;> rfl

/-- C10: for every manifest taken through the Deployment branch of
`apply_manifest`, every container of the object sent to the cluster
carries the fixed requests cpu=100m, memory=128Mi and limits cpu=500m,
memory=512Mi, regardless of any resources section of the input. -/
theorem c10_fixed_container_resources :
    ∀ (manifest : Val) (d : K8sDeployment),
      apply_manifest_deployment manifest = some d →
      ∀ c ∈ d.containers, c.resources = previewResources := by
  intro manifest d h c hc
  unfold apply_manifest_deployment at h
  repeat' split at h
  all_goals try exact Option.noConfusion h
  dsimp only at h
  injection h with h'
  subst h'
  dsimp only at hc
  rcases List.mem_map.mp hc with ⟨v, _, hfc⟩
  rw [← hfc]
  exact build_container_resources v

/-- C10 (witness): a Deployment manifest that asks for cpu=4,
memory=8Gi still comes out with the fixed preview resources on its
container. -/
theorem c10_witness_eval :
    ((apply_manifest_deployment sampleDeployManifest).getD
        defaultK8sDeployment).containers.all
      (fun c => decide (c.resources = previewResources)) = true := by
  have h : apply_manifest_deployment sampleDeployManifest
      = some ((apply_manifest_deployment sampleDeployManifest).getD
          defaultK8sDeployment) := rfl
  have h2 := c10_fixed_container_resources _ _ h
  rw [List.all_eq_true]
  intro c hc
  simpa using h2 c hc

/-- Helper: looking up the key just written. -/
theorem dictGet_dictSet_self (d : List (String × Val)) (k : String)
    (v : Val) : dictGet (dictSet d k v) k = some v := by
  induction d with
  | nil => simp [dictSet, dictGet]
  | cons kv rest ih =>
      obtain ⟨k', v'⟩ := kv
      unfold dictSet
      cases h : (k' == k) with
      | true => simp [dictGet]
      | false => simp [dictGet, h, ih]

/-- Helper: writing one key leaves lookups of other keys unchanged. -/
theorem dictGet_dictSet_ne (d : List (String × Val)) (k k' : String)
    (v : Val) (h : k ≠ k') :
    dictGet (dictSet d k v) k' = dictGet d k' := by
  induction d with
  | nil =>
      simp [dictSet, dictGet]
      intro hk
      exact absurd hk h
  | cons kv rest ih =>
      obtain ⟨a, b⟩ := kv
      unfold dictSet
      cases ha : (a == k) with
      | true =>
          have haeq : a = k := by
            have := eq_of_beq ha
            exact this
          subst haeq
          have hk' : (a == k') = false := by
            cases hx : (a == k') with
            | true => exact absurd (eq_of_beq hx) h
            | false => rfl
          simp [dictGet, hk']
      | false => simp [dictGet, ha, ih]

/-- Helper: the Deployment-specific validation only rewrites the `spec`
entry of the manifest, so the `metadata` entry survives unchanged. -/
theorem validate_deployment_metadata (m : List (String × Val))
    (pfx : String) (r : ValidationResult) :
    dictGet (validate_deployment m pfx r).1 "metadata"
      = dictGet m "metadata" := by
  unfold validate_deployment
  dsimp only
  repeat' split
  all_goals first
    | rfl
    | exact dictGet_dictSet_ne _ _ _ _ (by decide)

/-- Helper: a manifest whose `metadata.namespace` already equals the
expected namespace satisfies the namespace property. -/
theorem hasNamespaceD_already (m md : List (String × Val)) (ns : String)
    (hm : dictGet m "metadata" = some (Val.vdict md))
    (hcond : (match dictGet md "namespace" with
              | some (Val.vstr s) => s == ns
              | _ => false) = true) :
    hasNamespaceD m ns = true := by
  unfold hasNamespaceD
  rw [hm]
  dsimp only
  exact hcond

/-- Helper: writing the expected namespace into the metadata establishes
the namespace property. -/
theorem hasNamespaceD_set (m md : List (String × Val)) (ns : String) :
    hasNamespaceD
      (dictSet m "metadata"
        (Val.vdict (dictSet md "namespace" (Val.vstr ns)))) ns = true := by
  unfold hasNamespaceD
  rw [dictGet_dictSet_self]
  dsimp only
  rw [dictGet_dictSet_self]
  simp

/-- Helper: the Deployment-specific validation does not disturb the
namespace property. -/
theorem hasNamespaceD_validate_deployment (x : List (String × Val))
    (pfx : String) (r : ValidationResult) (ns : String) :
    hasNamespaceD (validate_deployment x pfx r).1 ns
      = hasNamespaceD x ns := by
  unfold hasNamespaceD
  rw [validate_deployment_metadata]

/-- Helper: every manifest `_validate_and_correct` returns carries
`metadata.namespace` equal to the expected namespace. -/
theorem validate_and_correct_namespace (manifest : Val) (ns : String)
    (i : Nat) (r : ValidationResult) (cm : Val)
    (h : (validate_and_correct manifest ns i r).1 = some cm) :
    hasNamespace cm ns = true := by
  unfold validate_and_correct at h
  dsimp only at h
  repeat' split at h
  all_goals dsimp only at h
  all_goals try exact Option.noConfusion h
  all_goals injection h with h
  all_goals subst h
  all_goals unfold hasNamespace
  all_goals dsimp only
  all_goals try rw [hasNamespaceD_validate_deployment]
  all_goals first
    | exact hasNamespaceD_set _ _ _
    | exact hasNamespaceD_already _ _ _ (by assumption) (by assumption)

/-- Helper: every manifest collected by the validation loop carries the
expected namespace. -/
theorem validate_all_go_namespace (ns : String) :
    ∀ (l : List Val) (i : Nat) (r : ValidationResult),
      ∀ cm ∈ (validate_all_go ns l i r).1, hasNamespace cm ns = true := by
  intro l
  induction l with
  | nil =>
      intro i r cm hc
      simp [validate_all_go] at hc
  | cons mnf rest ih =>
      intro i r cm hc
      unfold validate_all_go at hc
      dsimp only at hc
      cases hp : (validate_and_correct mnf ns i r).1 with
      | none =>
          rw [hp] at hc
          dsimp only at hc
          exact ih _ _ _ hc
      | some c =>
          rw [hp] at hc
          dsimp only at hc
          rcases List.mem_cons.mp hc with h1 | h2
          · subst h1
            exact validate_and_correct_namespace mnf ns i r cm hp
          · exact ih _ _ _ h2

/-- C6: whenever the validator reports `is_valid`, every manifest in
`corrected_manifests` carries `metadata.namespace` equal to the expected
namespace. -/
theorem c6_valid_implies_namespace_corrected :
    ∀ (manifests : Val) (ns : String),
      (validate_all manifests ns).is_valid = true →
      ((validate_all manifests ns).corrected_manifests.getD []).all
        (fun m => hasNamespace m ns) = true := by
  intro manifests ns h
  unfold validate_all at h ⊢
  cases manifests with
  | vlist l =>
      dsimp only at h ⊢
      split_ifs at h ⊢ with h1 h2 h3
      · simp [add_error, emptyValidationResult] at h
      · simp [add_error, emptyValidationResult] at h
      · dsimp only
        rw [List.all_eq_true]
        intro cm hcm
        exact validate_all_go_namespace ns l 0 emptyValidationResult cm hcm
      · exact absurd h h3
  | vstr s => simp [add_error, emptyValidationResult] at h
  | vint n => simp [add_error, emptyValidationResult] at h
  | vbool b => simp [add_error, emptyValidationResult] at h
  | vdict d => simp [add_error, emptyValidationResult] at h
  | vnone => simp [add_error, emptyValidationResult] at h

/-- C6 (witness): a well-formed ConfigMap manifest without a namespace
passes validation and comes back with the expected namespace written
in. -/
theorem c6_witness_eval :
    (validate_all sampleManifests "pr-7-widget").is_valid = true
    ∧ ((validate_all sampleManifests
          "pr-7-widget").corrected_manifests.getD []).all
        (fun m => hasNamespace m "pr-7-widget") = true := by
  refine ⟨rfl, ?_⟩
  exact c6_valid_implies_namespace_corrected sampleManifests "pr-7-widget"
    rfl

/-- Helper: `dropWhile` is idempotent. -/
theorem dropWhile_idem {α : Type} (p : α → Bool) :
    ∀ l : List α, List.dropWhile p (List.dropWhile p l)
      = List.dropWhile p l := by
  intro l
  induction l with
  | nil => rfl
  | cons a t ih =>
      rw [List.dropWhile_cons]
      cases hp : p a with
      | true => simpa using ih
      | false => simp [List.dropWhile_cons, hp]

/-- Helper: `dropWhile` passes over an appended part whose head fails the
predicate. -/
theorem dropWhile_append_cons (p : Char → Bool) :
    ∀ (s : List Char) (c : Char) (t : List Char), p c = false →
      List.dropWhile p (s ++ c :: t) = List.dropWhile p s ++ c :: t := by
  intro s c t hc
  induction s with
  | nil => simp [List.dropWhile_cons, hc]
  | cons a s' ih =>
      rw [List.cons_append, List.dropWhile_cons, List.dropWhile_cons]
      cases hp : p a with
      | true => simpa using ih
      | false => simp

/-- Helper: a trailing non-whitespace character protects the whole list
from right-stripping. -/
theorem stripRight_concat :
    ∀ (s : List Char) (c : Char), c.isWhitespace = false →
      stripRight (s ++ [c]) = s ++ [c] := by
  intro s c hc
  induction s with
  | nil => simp [stripRight, hc]
  | cons a s' ih =>
      rw [List.cons_append]
      unfold stripRight
      rw [ih]
      simp

/-- Helper: the one-step equation of `stripRight`. -/
theorem stripRight_cons (c : Char) (t : List Char) :
    stripRight (c :: t)
      = (if (stripRight t).isEmpty then
           (if c.isWhitespace then [] else [c])
         else c :: stripRight t) := rfl

/-- Helper: `stripRight` is idempotent. -/
theorem stripRight_idem : ∀ s : List Char,
    stripRight (stripRight s) = stripRight s := by
  intro s
  induction s with
  | nil => rfl
  | cons c t ih =>
      rw [stripRight_cons]
      cases hrt : stripRight t with
      | nil =>
          cases hws : c.isWhitespace with
          | true => simp [hws, stripRight]
          | false => simp [hws, stripRight_cons, stripRight]
      | cons a rt =>
          rw [hrt] at ih
          simp only [List.isEmpty_cons, if_false, Bool.false_eq_true]
          rw [stripRight_cons, ih]
          simp

/-- Helper: left- and right-stripping commute. -/
theorem stripRight_stripLeft_comm : ∀ s : List Char,
    stripRight (stripLeft s) = stripLeft (stripRight s) := by
  intro s
  induction s with
  | nil => rfl
  | cons c t ih =>
      unfold stripLeft at ih ⊢
      rw [List.dropWhile_cons]
      cases hws : c.isWhitespace with
      | true =>
          rw [stripRight_cons]
          cases hrt : stripRight t with
          | nil =>
              rw [hrt] at ih
              simpa [hws] using ih
          | cons a rt =>
              rw [hrt] at ih
              simp only [List.isEmpty_cons, if_false, Bool.false_eq_true]
              rw [List.dropWhile_cons, hws]
              simpa [hrt] using ih
      | false =>
          rw [stripRight_cons]
          cases hrt : stripRight t with
          | nil => simp [hws, List.dropWhile_cons, stripRight_cons, hrt]
          | cons a rt => simp [hws, List.dropWhile_cons, stripRight_cons, hrt]

/-- Helper: `pyStrip` is idempotent. -/
theorem pyStrip_idem : ∀ s : List Char, pyStrip (pyStrip s) = pyStrip s := by
  intro s
  unfold pyStrip
  rw [stripRight_stripLeft_comm (stripRight s)]
  rw [stripRight_idem]
  unfold stripLeft
  rw [dropWhile_idem]

/-- Helper: stripping after left-stripping equals plain stripping. -/
theorem pyStrip_stripLeft : ∀ s : List Char,
    pyStrip (stripLeft s) = pyStrip s := by
  intro s
  unfold pyStrip
  rw [stripRight_stripLeft_comm s]
  unfold stripLeft
  exact dropWhile_idem _ _

/-- Helper: `int()` ignores leading whitespace already removed. -/
theorem pyParseInt_stripLeft (s : List Char) :
    pyParseInt (stripLeft s) = pyParseInt s := by
  unfold pyParseInt
  rw [pyStrip_stripLeft]

/-- Helper: `float()` ignores leading whitespace already removed. -/
theorem pyParseFloat_stripLeft (s : List Char) :
    pyParseFloat (stripLeft s) = pyParseFloat s := by
  unfold pyParseFloat
  rw [pyStrip_stripLeft]

/-- Helper: `int()` of a stripped string. -/
theorem pyParseInt_pyStrip (s : List Char) :
    pyParseInt (pyStrip s) = pyParseInt s := by
  unfold pyParseInt
  rw [pyStrip_idem]

/-- Helper: `float()` of a stripped string. -/
theorem pyParseFloat_pyStrip (s : List Char) :
    pyParseFloat (pyStrip s) = pyParseFloat s := by
  unfold pyParseFloat
  rw [pyStrip_idem]

/-- Helper: stripping a list with one appended non-whitespace suffix
character. -/
theorem pyStrip_concat (s : List Char) (c : Char)
    (hc : c.isWhitespace = false) :
    pyStrip (s ++ [c]) = stripLeft s ++ [c] := by
  unfold pyStrip
  rw [stripRight_concat s c hc]
  unfold stripLeft
  exact dropWhile_append_cons _ s c [] hc

/-- Helper: stripping a list with two appended non-whitespace suffix
characters. -/
theorem pyStrip_concat2 (s : List Char) (a b : Char)
    (ha : a.isWhitespace = false) (hb : b.isWhitespace = false) :
    pyStrip (s ++ [a, b]) = stripLeft s ++ [a, b] := by
  unfold pyStrip
  have hsr : stripRight (s ++ [a, b]) = s ++ [a, b] := by
    rw [show s ++ [a, b] = (s ++ [a]) ++ [b] by simp]
    rw [stripRight_concat (s ++ [a]) b hb]
  rw [hsr]
  unfold stripLeft
  exact dropWhile_append_cons _ s a [b] ha

/-- Helper: `endswith` of one appended character against a one-character
suffix. -/
theorem endsWith_concat1 (x : List Char) (a c : Char) :
    pyEndsWith (x ++ [a]) [c] = (c == a) := by
  simp [pyEndsWith, List.isPrefixOf]

/-- Helper: `endswith` of two appended characters against a two-character
suffix. -/
theorem endsWith_concat2 (x : List Char) (a b c d : Char) :
    pyEndsWith (x ++ [a, b]) [c, d] = (d == b && c == a) := by
  have hrev : (x ++ [a, b]).reverse = b :: a :: x.reverse := by simp
  simp [pyEndsWith, hrev, List.isPrefixOf]

/-- Helper: dropping the last two characters of a two-character append. -/
theorem dropLast_concat2 (x : List Char) (a b : Char) :
    (x ++ [a, b]).dropLast.dropLast = x := by
  have h1 : (x ++ [a, b]).dropLast = x ++ [a] := by
    rw [show x ++ [a, b] = (x ++ [a]) ++ [b] by simp, List.dropLast_concat]
  rw [h1, List.dropLast_concat]

/-- C9 (counterexample): the parsers compute in binary64, not exact
arithmetic.  The exact value of the string `1.013` is 1013/1000 (so its
numeric value times 1000 is exactly 1013), but the nearest double times
1000 in binary64 falls just below 1013, so `_parse_cpu("1.013")` returns
1012. -/
theorem c9_float_rounding_counterexample :
    parse_cpu ['1', '.', '0', '1', '3'] = some 1012
    ∧ pyParseFloatMagPair ['1', '.', '0', '1', '3'] = some (1013, 1000)
    ∧ (1012 : Int) ≠ 1013 := by
  refine ⟨by decide, by decide, by decide⟩

/-- C9 (amended): behaviour of the validator's resource parsers in IEEE
binary64 arithmetic.  A CPU value with trailing `m` parses to exactly
that many millicores; any other CPU value parses to the truncation of
its double value times 1000 in binary64, which can fall short of the
exact product (e.g. `1.013` gives 1012, not 1013).  A memory value with
suffix `Gi` parses to the truncation of its double times 1024, `Mi` to
its truncated double, `Ki` to its double divided by 1024, and a bare
number is treated as an integer byte count divided by 1024² with binary64
true division (which rounds for counts beyond 2^53). -/
theorem c9_resource_parsers :
    ∀ (s : List Char) (n : Int) (x : B64),
      (pyParseInt s = some n → parse_cpu (s ++ ['m']) = some n)
      ∧ (pyParseFloat s = some x →
          pyEndsWith (pyStrip s) ['m'] = false →
          parse_cpu s = some (pyTruncB64 (pyFloatMulNat x 1000)))
      ∧ (pyParseFloat s = some x →
          parse_memory_mi (s ++ ['G', 'i'])
            = some (pyTruncB64 (pyFloatMulNat x 1024)))
      ∧ (pyParseFloat s = some x →
          parse_memory_mi (s ++ ['M', 'i']) = some (pyTruncB64 x))
      ∧ (pyParseFloat s = some x →
          parse_memory_mi (s ++ ['K', 'i'])
            = some (pyTruncB64 (pyFloatDivNat x 1024)))
      ∧ (pyParseInt s = some n →
          pyEndsWith (pyStrip s) ['G', 'i'] = false →
          pyEndsWith (pyStrip s) ['M', 'i'] = false →
          pyEndsWith (pyStrip s) ['K', 'i'] = false →
          parse_memory_mi s
            = some (pyTruncB64 (pyIntDivNat n (1024 * 1024)))) := by
  intro s n x
  refine ⟨?_, ?_, ?_, ?_, ?_, ?_⟩
  · intro h
    unfold parse_cpu
    dsimp only
    rw [pyStrip_concat s 'm' (by decide)]
    rw [if_pos (show pyEndsWith (stripLeft s ++ ['m']) ['m'] = true by
      rw [endsWith_concat1]; decide)]
    rw [List.dropLast_concat]
    rw [pyParseInt_stripLeft]
    exact h
  · intro hq hm
    unfold parse_cpu
    dsimp only
    rw [if_neg (by simp [hm])]
    rw [pyParseFloat_pyStrip, hq]
    rfl
  · intro hq
    unfold parse_memory_mi
    dsimp only
    rw [pyStrip_concat2 s 'G' 'i' (by decide) (by decide)]
    rw [if_pos (show pyEndsWith (stripLeft s ++ ['G', 'i']) ['G', 'i']
        = true by rw [endsWith_concat2]; decide)]
    rw [dropLast_concat2]
    rw [pyParseFloat_stripLeft, hq]
    rfl
  · intro hq
    unfold parse_memory_mi
    dsimp only
    rw [pyStrip_concat2 s 'M' 'i' (by decide) (by decide)]
    have hgi : pyEndsWith (stripLeft s ++ ['M', 'i']) ['G', 'i'] = false := by
      rw [endsWith_concat2]; decide
    rw [if_neg (by simp [hgi])]
    rw [if_pos (show pyEndsWith (stripLeft s ++ ['M', 'i']) ['M', 'i']
        = true by rw [endsWith_concat2]; decide)]
    rw [dropLast_concat2]
    rw [pyParseFloat_stripLeft, hq]
    rfl
  · intro hq
    unfold parse_memory_mi
    dsimp only
    rw [pyStrip_concat2 s 'K' 'i' (by decide) (by decide)]
    have hgi : pyEndsWith (stripLeft s ++ ['K', 'i']) ['G', 'i'] = false := by
      rw [endsWith_concat2]; decide
    have hmi : pyEndsWith (stripLeft s ++ ['K', 'i']) ['M', 'i'] = false := by
      rw [endsWith_concat2]; decide
    rw [if_neg (by simp [hgi])]
    rw [if_neg (by simp [hmi])]
    rw [if_pos (show pyEndsWith (stripLeft s ++ ['K', 'i']) ['K', 'i']
        = true by rw [endsWith_concat2]; decide)]
    rw [dropLast_concat2]
    rw [pyParseFloat_stripLeft, hq]
    rfl
  · intro hn h1 h2 h3
    unfold parse_memory_mi
    dsimp only
    rw [if_neg (by simp [h1])]
    rw [if_neg (by simp [h2])]
    rw [if_neg (by simp [h3])]
    rw [pyParseInt_pyStrip, hn]
    rfl

/-- C9 (witness): `250m` parses to 250 millicores, and `2Gi` (2 being
exactly representable, and scaling by 1024 exact in binary64) parses to
2048 Mi. -/
theorem c9_witness_eval :
    pyParseInt ['2', '5', '0'] = some 250
    ∧ parse_cpu (['2', '5', '0'] ++ ['m']) = some 250
    ∧ pyParseFloat ['2'] = some ⟨4503599627370496, -51⟩
    ∧ parse_memory_mi (['2'] ++ ['G', 'i']) = some 2048 := by
  have h1 := (c9_resource_parsers ['2', '5', '0'] 250
    (⟨0, 0⟩ : B64)).1 (by decide)
  have h2 := (c9_resource_parsers ['2'] 0
    (⟨4503599627370496, -51⟩ : B64)).2.2.1 (by decide)
  refine ⟨by decide, h1, by decide, ?_⟩
  rw [h2]
  decide
